import Mathlib

/-!
# Client state manager of the user CRUD application

A shallow embedding of the React component of `src/frontend/src/App.jsx`:
the component state, the event handlers `fetchUsers`, `createUser`,
`updateUser`, `deleteUser`, `editUser`, `cancelEdit`, and the
`setTimeout` callbacks that clear the transient messages.

An asynchronous handler is a closure over the state of the render in which
it was started (`cap`); its setter calls are applied to the state that is
current when the response arrives (`cur`).  When nothing else happens in
between, the two coincide.
-/

namespace CrudApp

/-! ## JavaScript values -/

/-- The JavaScript values a record field or a message can hold. -/
inductive JsVal where
  | undefined
  | str (s : String)
  | num (n : Int)
  deriving DecidableEq, Repr

/-- JavaScript truthiness: `undefined`, `''` and `0` are falsy. -/
def truthy : JsVal → Bool
  | .undefined => false
  | .str s => s != ""
  | .num n => n != 0

/-- The JavaScript operator `a || b`. -/
def jsOr (a b : JsVal) : JsVal :=
  if truthy a then a else b

/-- An optional text field read as a JavaScript value (absent is `undefined`). -/
def optStr : Option String → JsVal
  | none => .undefined
  | some s => .str s

/-- An optional integer field read as a JavaScript value (absent is `undefined`). -/
def optNum : Option Int → JsVal
  | none => .undefined
  | some n => .num n

/-! ## Data model -/

/-- Modelled from the spec: the user record returned by the API (the schema
file of the backend is not among the sources).  Name and email are required
texts; phone, age and address are optional; the identifier and the creation
timestamp are assigned by the server. -/
structure User where
  _id : String
  name : String
  email : String
  phone : Option String
  age : Option Int
  address : Option String
  createdAt : String
  deriving DecidableEq, Repr

/-- The form draft, `formData` (App.jsx, lines 13-19). -/
structure FormData where
  name : JsVal
  email : JsVal
  phone : JsVal
  age : JsVal
  address : JsVal
  deriving DecidableEq, Repr

/-- The object literal with all five fields the empty text, as written at
lines 13-19, 42, 58 and 100. -/
def emptyForm : FormData :=
  { name := .str "", email := .str "", phone := .str "", age := .str "", address := .str "" }

/-- The component state held by the six `useState` hooks (lines 8-19). -/
structure AppState where
  users : List User
  loading : Bool
  error : JsVal
  success : JsVal
  editingUser : Option User
  formData : FormData
  deriving DecidableEq, Repr

/-- The initial values passed to `useState` (lines 8-19). -/
def initialState : AppState :=
  { users := [], loading := true, error := .str "", success := .str "",
    editingUser := none, formData := emptyForm }

/-! ## Results of an API call -/

/-- The body of an error response; `message` is `undefined` when the body has none. -/
structure ErrorBody where
  message : JsVal
  deriving DecidableEq, Repr

/-- The `response` of a rejected request; `data` may be missing. -/
structure ErrorResponse where
  data : Option ErrorBody
  deriving DecidableEq, Repr

/-- The value caught by a handler; `response` is missing for a network error. -/
structure AxiosError where
  response : Option ErrorResponse
  deriving DecidableEq, Repr

/-- The expression `err.response?.data?.message`. -/
def errMessage (err : AxiosError) : JsVal :=
  match err.response with
  | none => .undefined
  | some resp =>
    match resp.data with
    | none => .undefined
    | some body => body.message

/-- The awaited request either resolves with data or rejects with an error. -/
inductive Outcome (α : Type) where
  | ok (data : α)
  | fail (err : AxiosError)

/-! ## Transient messages -/

/-- The two message slots that a `setTimeout` callback can clear. -/
inductive Slot where
  | success
  | error
  deriving DecidableEq, Repr

/-- What a handler leaves behind: the new state and, when it called
`setTimeout(() => set...(''), 3000)`, the slot that callback clears. -/
structure Handled where
  state : AppState
  timer : Option Slot
  deriving DecidableEq, Repr

/-! ## Handlers -/

/-- First statement of `fetchUsers` (line 24): `setLoading(true)`. -/
def fetchUsersStart (cur : AppState) : AppState :=
  { cur with loading := true }

/-- The rest of `fetchUsers` once the list request settles (lines 25-33). -/
def fetchUsersDone (res : Outcome (List User)) (cur : AppState) : AppState :=
  match res with
  | .ok data => { cur with users := data, error := .str "", loading := false }
  | .fail _ => { cur with error := .str "Failed to fetch users", loading := false }

/-- The handler `fetchUsers` run without interruption (lines 22-34). -/
def fetchUsers (res : Outcome (List User)) (s : AppState) : AppState :=
  fetchUsersDone res (fetchUsersStart s)

/-- The handler `createUser` (lines 37-50). -/
def createUser (cap : AppState) (res : Outcome User) (cur : AppState) : Handled :=
  match res with
  | .ok data =>
    { state := { cur with
        users := data :: cap.users,
        formData := emptyForm,
        success := .str "User created successfully!",
        error := .str "" },
      timer := some .success }
  | .fail err =>
    { state := { cur with error := jsOr (errMessage err) (.str "Failed to create user") },
      timer := some .error }

/-- The handler `updateUser` (lines 53-67).  Reading `editingUser._id` while
`editingUser` is `null` throws inside the `try`; the value caught then has no
`response`. -/
def updateUser (cap : AppState) (res : Outcome User) (cur : AppState) : Handled :=
  match cap.editingUser with
  | none =>
    { state := { cur with error := jsOr .undefined (.str "Failed to update user") },
      timer := some .error }
  | some editing =>
    match res with
    | .ok data =>
      { state := { cur with
          users := cap.users.map (fun user => if user._id = editing._id then data else user),
          formData := emptyForm,
          editingUser := none,
          success := .str "User updated successfully!",
          error := .str "" },
        timer := some .success }
    | .fail err =>
      { state := { cur with error := jsOr (errMessage err) (.str "Failed to update user") },
        timer := some .error }

/-- The handler `deleteUser` (lines 70-83); `confirmed` is the answer of
`window.confirm`. -/
def deleteUser (id : String) (confirmed : Bool) (cap : AppState) (res : Outcome Unit)
    (cur : AppState) : Handled :=
  if confirmed then
    match res with
    | .ok _ =>
      { state := { cur with
          users := cap.users.filter (fun user => user._id != id),
          success := .str "User deleted successfully!",
          error := .str "" },
        timer := some .success }
    | .fail _ =>
      { state := { cur with error := .str "Failed to delete user" },
        timer := some .error }
  else
    { state := cur, timer := none }

/-- The handler `editUser` (lines 86-95). -/
def editUser (user : User) (cur : AppState) : AppState :=
  { cur with
    editingUser := some user,
    formData :=
      { name := .str user.name,
        email := .str user.email,
        phone := jsOr (optStr user.phone) (.str ""),
        age := jsOr (optNum user.age) (.str ""),
        address := jsOr (optStr user.address) (.str "") } }

/-- The handler `cancelEdit` (lines 98-101). -/
def cancelEdit (cur : AppState) : AppState :=
  { cur with editingUser := none, formData := emptyForm }

/-! ## Timers -/

/-- The callbacks `() => setSuccess('')` and `() => setError('')`. -/
def clearSlot (slot : Slot) (cur : AppState) : AppState :=
  match slot with
  | .success => { cur with success := .str "" }
  | .error => { cur with error := .str "" }

/-- The message currently held in a slot. -/
def getSlot (slot : Slot) (s : AppState) : JsVal :=
  match slot with
  | .success => s.success
  | .error => s.error

/-- A pending `setTimeout` callback and the time (in ms) at which it runs. -/
structure Timer where
  fireAt : Nat
  slot : Slot
  deriving DecidableEq, Repr

/-- The component together with its pending timers. -/
structure World where
  app : AppState
  timers : List Timer
  deriving DecidableEq, Repr

/-- Run, in the order they were scheduled, the callbacks due at time `now`
and drop them from the pending list. -/
def fireDue (now : Nat) (w : World) : World :=
  { app := (w.timers.filter (fun t => decide (t.fireAt ≤ now))).foldl
      (fun s t => clearSlot t.slot s) w.app,
    timers := w.timers.filter (fun t => !decide (t.fireAt ≤ now)) }

/-- A handler completes at time `now` (in ms): callbacks already due run
first, then the handler's setters are applied and its callback, if any, is
scheduled 3000 ms later, the delay passed to every `setTimeout` call. -/
def complete (now : Nat) (h : AppState → Handled) (w : World) : World :=
  let w1 := fireDue now w
  let r := h w1.app
  { app := r.state,
    timers := w1.timers ++
      (match r.timer with
       | some slot => [{ fireAt := now + 3000, slot := slot }]
       | none => []) }

/-- The state shown at time `now`. -/
def viewAt (now : Nat) (w : World) : AppState :=
  (fireDue now w).app

/-- The create, update and delete calls, each with the way it settled. -/
inductive Action where
  | create (res : Outcome User)
  | update (res : Outcome User)
  | delete (id : String) (res : Outcome Unit)

/-- The handler of an action started in the render whose state is `cap`,
awaiting the state in which its response arrives; a delete is confirmed. -/
def Action.handler : Action → AppState → AppState → Handled
  | .create res, cap => createUser cap res
  | .update res, cap => updateUser cap res
  | .delete id res, cap => deleteUser id true cap res

/-- The message slot the outcome of an action calls for: the success slot
when its request resolved (for an update, started while a record was being
edited), the error slot when the request was rejected or was never sent. -/
def Action.slot : Action → AppState → Slot
  | .create (.ok _), _ => .success
  | .create (.fail _), _ => .error
  | .update (.ok _), cap => if cap.editingUser.isSome then .success else .error
  | .update (.fail _), _ => .error
  | .delete _ (.ok _), _ => .success
  | .delete _ (.fail _), _ => .error

/-- The component after one action, started in state `c1`, completed at time
`t1` in state `s` with no timer pending. -/
def afterOne (s : AppState) (t1 : Nat) (a1 : Action) (c1 : AppState) : World :=
  complete t1 (a1.handler c1) { app := s, timers := [] }

/-- The component after a second action, started in state `c2`, completed at
time `t2`. -/
def afterTwo (s : AppState) (t1 : Nat) (a1 : Action) (c1 : AppState)
    (t2 : Nat) (a2 : Action) (c2 : AppState) : World :=
  complete t2 (a2.handler c2) (afterOne s t1 a1 c1)

/-! ## Sample data -/

/-- A record with every optional field present. -/
def ann : User :=
  { _id := "u1", name := "Ann", email := "a@x.com", phone := some "555", age := some 30,
    address := some "1 Main St", createdAt := "2024-01-01" }

/-- A record with no optional field. -/
def bob : User :=
  { _id := "u2", name := "Bob", email := "b@x.com", phone := none, age := none,
    address := none, createdAt := "2024-01-02" }

/-- A newborn: a record whose age is the integer zero. -/
def baby : User :=
  { _id := "u3", name := "Cy", email := "c@x.com", phone := none, age := some 0,
    address := none, createdAt := "2024-01-03" }

/-- The record the server returns for an update of `ann`. -/
def annB : User :=
  { ann with name := "Ann B" }

/-- A loaded list of two records, with `ann` being edited. -/
def editingAnn : AppState :=
  { users := [ann, bob], loading := false, error := .str "", success := .str "",
    editingUser := some ann,
    formData := { name := .str "Ann B", email := .str "a@x.com", phone := .str "555",
                  age := .num 30, address := .str "1 Main St" } }

/-- The state once the list `[ann, bob]` has been fetched on mount. -/
def loaded : AppState :=
  fetchUsers (.ok [ann, bob]) initialState

/-- A 404 response whose body carries a message. -/
def notFound : AxiosError :=
  { response := some { data := some { message := .str "User not found" } } }

/-! ## Auxiliary facts -/

theorem truthy_jsOr_str (a : JsVal) (d : String) (hd : d ≠ "") :
    truthy (jsOr a (.str d)) = true := by
  unfold jsOr
  split
  · assumption
  · simpa [truthy] using hd

theorem jsOr_ne_empty (a : JsVal) (d : String) (hd : d ≠ "") :
    jsOr a (.str d) ≠ .str "" := by
  intro h
  have ht := truthy_jsOr_str a d hd
  rw [h] at ht
  simp [truthy] at ht

theorem jsOr_of_nonempty (m d : String) (hm : m ≠ "") :
    jsOr (.str m) (.str d) = .str m := by
  simp [jsOr, truthy, hm]

theorem map_replace_getElem? (l : List User) (x : String) (r : User) (i : Nat) :
    (l.map (fun user => if user._id = x then r else user))[i]? =
      (l[i]?).map (fun user => if user._id = x then r else user) := by
  simp

theorem map_replace_of_absent (l : List User) (x : String) (r : User)
    (h : ∀ u ∈ l, u._id ≠ x) :
    l.map (fun user => if user._id = x then r else user) = l := by
  induction l with
  | nil => rfl
  | cons a t ih =>
    have ha : a._id ≠ x := h a (List.mem_cons_self a t)
    have ht : ∀ u ∈ t, u._id ≠ x := fun u hu => h u (List.mem_cons_of_mem a hu)
    simp [ha, ih ht]

/-! ## The handlers, one at a time -/

/-- C1: when the create call succeeds with record `r`, the records become `r`
followed by the previous records (one more than before), every draft field is
the empty text, success is 'User created successfully!', error is the empty
text and `editingUser` is unchanged. -/
theorem createUser_success (s : AppState) (r : User) :
    (createUser s (.ok r) s).state.users = r :: s.users ∧
    (createUser s (.ok r) s).state.users.length = s.users.length + 1 ∧
    (createUser s (.ok r) s).state.formData.name = .str "" ∧
    (createUser s (.ok r) s).state.formData.email = .str "" ∧
    (createUser s (.ok r) s).state.formData.phone = .str "" ∧
    (createUser s (.ok r) s).state.formData.age = .str "" ∧
    (createUser s (.ok r) s).state.formData.address = .str "" ∧
    (createUser s (.ok r) s).state.success = .str "User created successfully!" ∧
    (createUser s (.ok r) s).state.error = .str "" ∧
    (createUser s (.ok r) s).state.editingUser = s.editingUser := by
  simp [createUser, emptyForm]

/-- C2: when the update call for the edited record (id `X`) succeeds with
record `r`, the records keep their length, hold `r` at every position whose
previous record had id `X` and the previous record at every other position
(so the list is unchanged when no record has id `X`); the draft is cleared,
`editingUser` is none, success is 'User updated successfully!' and error is
the empty text. -/
theorem updateUser_success (s : AppState) (editing r : User)
    (h : s.editingUser = some editing) :
    (updateUser s (.ok r) s).state.users.length = s.users.length ∧
    (∀ i : Nat, (updateUser s (.ok r) s).state.users[i]? =
      (s.users[i]?).map (fun prev => if prev._id = editing._id then r else prev)) ∧
    ((∀ u ∈ s.users, u._id ≠ editing._id) →
      (updateUser s (.ok r) s).state.users = s.users) ∧
    (updateUser s (.ok r) s).state.formData.name = .str "" ∧
    (updateUser s (.ok r) s).state.formData.email = .str "" ∧
    (updateUser s (.ok r) s).state.formData.phone = .str "" ∧
    (updateUser s (.ok r) s).state.formData.age = .str "" ∧
    (updateUser s (.ok r) s).state.formData.address = .str "" ∧
    (updateUser s (.ok r) s).state.editingUser = none ∧
    (updateUser s (.ok r) s).state.success = .str "User updated successfully!" ∧
    (updateUser s (.ok r) s).state.error = .str "" := by
  have hu : (updateUser s (.ok r) s).state.users =
      s.users.map (fun user => if user._id = editing._id then r else user) := by
    simp [updateUser, h]
  refine ⟨?_, ?_, ?_, ?_, ?_, ?_, ?_, ?_, ?_, ?_, ?_⟩
  · rw [hu, List.length_map]
  · intro i
    rw [hu]
    exact map_replace_getElem? s.users editing._id r i
  · intro hab
    rw [hu]
    exact map_replace_of_absent s.users editing._id r hab
  all_goals simp [updateUser, h, emptyForm]

/-- Witness of C2: updating `ann` in the list `[ann, bob]`. -/
theorem updateUser_success_witness :
    editingAnn.editingUser = some ann ∧
    (updateUser editingAnn (.ok annB) editingAnn).state.users.length =
      editingAnn.users.length :=
  ⟨rfl, (updateUser_success editingAnn ann annB rfl).1⟩

/-- C3: when a confirmed delete of id `X` succeeds, no remaining record has
id `X`, every previous record with another id remains, as often as before
and in the previous relative order; success is 'User deleted successfully!',
error is the empty text, and the draft and `editingUser` are unchanged,
whatever record is being edited. -/
theorem deleteUser_success (s : AppState) (id : String) :
    (∀ u ∈ (deleteUser id true s (.ok ()) s).state.users, u._id ≠ id) ∧
    (∀ u ∈ s.users, u._id ≠ id → u ∈ (deleteUser id true s (.ok ()) s).state.users) ∧
    (∀ u : User, u._id ≠ id →
      (deleteUser id true s (.ok ()) s).state.users.count u = s.users.count u) ∧
    List.Sublist (deleteUser id true s (.ok ()) s).state.users s.users ∧
    (deleteUser id true s (.ok ()) s).state.success = .str "User deleted successfully!" ∧
    (deleteUser id true s (.ok ()) s).state.error = .str "" ∧
    (deleteUser id true s (.ok ()) s).state.formData = s.formData ∧
    (deleteUser id true s (.ok ()) s).state.editingUser = s.editingUser := by
  have hu : (deleteUser id true s (.ok ()) s).state.users =
      s.users.filter (fun user => user._id != id) := by
    simp [deleteUser]
  refine ⟨?_, ?_, ?_, ?_, ?_, ?_, ?_, ?_⟩
  · intro u hmem
    rw [hu, List.mem_filter] at hmem
    simpa using hmem.2
  · intro u hmem hne
    rw [hu, List.mem_filter]
    exact ⟨hmem, by simpa using hne⟩
  · intro u hne
    rw [hu]
    exact List.count_filter (by simpa using hne)
  · rw [hu]
    exact List.filter_sublist s.users
  all_goals simp [deleteUser]

/-- C4: when the create, update or confirmed delete call fails, the records,
the draft and `editingUser` are as before; the state after the handler is the
state before with only the error replaced, and the new error is not the
empty text. -/
theorem failure_changes_only_error (s : AppState) (err : AxiosError) (id : String) :
    ((createUser s (.fail err) s).state.users = s.users ∧
     (createUser s (.fail err) s).state.formData = s.formData ∧
     (createUser s (.fail err) s).state.editingUser = s.editingUser ∧
     (createUser s (.fail err) s).state =
       { s with error := (createUser s (.fail err) s).state.error } ∧
     (createUser s (.fail err) s).state.error ≠ .str "" ∧
     truthy (createUser s (.fail err) s).state.error = true) ∧
    ((updateUser s (.fail err) s).state.users = s.users ∧
     (updateUser s (.fail err) s).state.formData = s.formData ∧
     (updateUser s (.fail err) s).state.editingUser = s.editingUser ∧
     (updateUser s (.fail err) s).state =
       { s with error := (updateUser s (.fail err) s).state.error } ∧
     (updateUser s (.fail err) s).state.error ≠ .str "" ∧
     truthy (updateUser s (.fail err) s).state.error = true) ∧
    ((deleteUser id true s (.fail err) s).state.users = s.users ∧
     (deleteUser id true s (.fail err) s).state.formData = s.formData ∧
     (deleteUser id true s (.fail err) s).state.editingUser = s.editingUser ∧
     (deleteUser id true s (.fail err) s).state =
       { s with error := (deleteUser id true s (.fail err) s).state.error } ∧
     (deleteUser id true s (.fail err) s).state.error ≠ .str "" ∧
     truthy (deleteUser id true s (.fail err) s).state.error = true) := by
  refine ⟨⟨rfl, rfl, rfl, rfl, ?_, ?_⟩, ⟨?_, ?_, ?_, ?_, ?_, ?_⟩, ⟨rfl, rfl, rfl, rfl, ?_, ?_⟩⟩
  · exact jsOr_ne_empty _ _ (by decide)
  · exact truthy_jsOr_str _ _ (by decide)
  all_goals first
    | (cases hE : s.editingUser <;> simp [updateUser, hE]; done)
    | (cases hE : s.editingUser <;> simp only [updateUser, hE] <;>
        first
          | exact jsOr_ne_empty _ _ (by decide)
          | exact truthy_jsOr_str _ _ (by decide))
    | simp [deleteUser, truthy]

/-- C5, as stated, fails for delete: a failed delete whose response body
carries the message 'User not found' leaves 'Failed to delete user' in the
error slot. -/
theorem deleteUser_ignores_message :
    errMessage notFound = .str "User not found" ∧
    (deleteUser "u1" true editingAnn (.fail notFound) editingAnn).state.error =
      .str "Failed to delete user" ∧
    (deleteUser "u1" true editingAnn (.fail notFound) editingAnn).state.error ≠
      errMessage notFound := by
  decide

/-- C5, amended: a failed create call, and a failed update call while a record
is being edited, whose response body carries a non-empty text `message` set
the error to that message; a failed confirmed delete sets the error to
'Failed to delete user' whatever the response holds. -/
theorem failure_message_shown (s : AppState) (err : AxiosError) (id : String) :
    (∀ m : String, m ≠ "" → errMessage err = .str m →
      (createUser s (.fail err) s).state.error = .str m ∧
      (s.editingUser ≠ none → (updateUser s (.fail err) s).state.error = .str m)) ∧
    (deleteUser id true s (.fail err) s).state.error = .str "Failed to delete user" := by
  refine ⟨?_, ?_⟩
  · intro m hm hmsg
    refine ⟨?_, ?_⟩
    · simp only [createUser, hmsg]
      exact jsOr_of_nonempty m _ hm
    · intro he
      cases hE : s.editingUser with
      | none => exact absurd hE he
      | some editing =>
        simp only [updateUser, hE, hmsg]
        exact jsOr_of_nonempty m _ hm
  · simp [deleteUser]

/-- Witness of the amended C5: a 404 with the message 'User not found' while
`ann` is edited. -/
theorem failure_message_shown_witness :
    ("User not found" ≠ "" ∧ errMessage notFound = .str "User not found") ∧
    ((createUser editingAnn (.fail notFound) editingAnn).state.error = .str "User not found" ∧
     (updateUser editingAnn (.fail notFound) editingAnn).state.error = .str "User not found" ∧
     (deleteUser "u1" true editingAnn (.fail notFound) editingAnn).state.error =
       .str "Failed to delete user") :=
  ⟨⟨by decide, rfl⟩,
   ((failure_message_shown editingAnn notFound "u1").1 "User not found" (by decide) rfl).1,
   ((failure_message_shown editingAnn notFound "u1").1 "User not found" (by decide) rfl).2
     (by decide),
   (failure_message_shown editingAnn notFound "u1").2⟩

/-- C6 fails at a record whose age is 0: the edit intent leaves the empty
text in the draft's age, not the number 0. -/
theorem editUser_age_zero_lost :
    baby.age = some 0 ∧
    (editUser baby initialState).formData.age = .str "" ∧
    (editUser baby initialState).formData.age ≠ .num 0 := by
  decide

/-- The part of C6 that holds for every record: the editing id, name, email,
phone and address are taken from the record (an absent phone or address
giving the empty text), the age too unless it is 0, and the records and
messages are unchanged. -/
theorem editUser_populates (R : User) (s : AppState) :
    (editUser R s).editingUser = some R ∧
    (editUser R s).formData.name = .str R.name ∧
    (editUser R s).formData.email = .str R.email ∧
    (editUser R s).formData.phone = .str (R.phone.getD "") ∧
    (editUser R s).formData.address = .str (R.address.getD "") ∧
    (R.age = none → (editUser R s).formData.age = .str "") ∧
    (∀ n : Int, R.age = some n → n ≠ 0 → (editUser R s).formData.age = .num n) ∧
    (editUser R s).users = s.users ∧
    (editUser R s).success = s.success ∧
    (editUser R s).error = s.error ∧
    (editUser R s).loading = s.loading := by
  refine ⟨rfl, rfl, rfl, ?_, ?_, ?_, ?_, rfl, rfl, rfl, rfl⟩
  · cases hp : R.phone with
    | none => simp [editUser, hp, optStr, jsOr, truthy]
    | some p =>
      by_cases hpe : p = "" <;> simp [editUser, hp, optStr, jsOr, truthy, hpe]
  · cases ha : R.address with
    | none => simp [editUser, ha, optStr, jsOr, truthy]
    | some a =>
      by_cases hae : a = "" <;> simp [editUser, ha, optStr, jsOr, truthy, hae]
  · intro hn
    simp [editUser, hn, optNum, jsOr, truthy]
  · intro n hn hz
    simp [editUser, hn, optNum, jsOr, truthy, hz]

/-- C7: the cancel intent sets `editingUser` to none and every draft field to
the empty text, which is the initial draft, and leaves the records and both
messages unchanged; an edit intent followed by the cancel intent therefore
gives the draft and `editingUser` of the initial state. -/
theorem cancelEdit_clears (s : AppState) (R : User) :
    (cancelEdit s).editingUser = none ∧
    (cancelEdit s).formData.name = .str "" ∧
    (cancelEdit s).formData.email = .str "" ∧
    (cancelEdit s).formData.phone = .str "" ∧
    (cancelEdit s).formData.age = .str "" ∧
    (cancelEdit s).formData.address = .str "" ∧
    (cancelEdit s).formData = initialState.formData ∧
    (cancelEdit s).users = s.users ∧
    (cancelEdit s).success = s.success ∧
    (cancelEdit s).error = s.error ∧
    (cancelEdit (editUser R s)).formData = initialState.formData ∧
    (cancelEdit (editUser R s)).editingUser = initialState.editingUser := by
  simp [cancelEdit, editUser, emptyForm, initialState]

/-- C8: `fetchUsers` first sets loading to true and ends with loading false
in every outcome; on success with list `L` the records are `L` and error is
the empty text; on failure error is 'Failed to fetch users' and the records
are unchanged.  Initially loading is true and there are no records. -/
theorem fetchUsers_outcomes (s : AppState) (L : List User) (err : AxiosError)
    (res : Outcome (List User)) :
    (fetchUsersStart s).loading = true ∧
    (fetchUsersDone res s).loading = false ∧
    (fetchUsers res s).loading = false ∧
    (fetchUsers (.ok L) s).users = L ∧
    (fetchUsers (.ok L) s).error = .str "" ∧
    (fetchUsers (.fail err) s).error = .str "Failed to fetch users" ∧
    (fetchUsers (.fail err) s).users = s.users ∧
    initialState.loading = true ∧
    initialState.users = [] := by
  refine ⟨rfl, ?_, ?_, rfl, rfl, rfl, rfl, rfl, rfl⟩
  · cases res <;> rfl
  · cases res <;> rfl

/-! ## Interleavings -/

theorem getSlot_clearSlot (slot : Slot) (s : AppState) :
    getSlot slot (clearSlot slot s) = .str "" := by
  cases slot <;> rfl

theorem getSlot_clearSlot_twice (slot : Slot) (s : AppState) :
    getSlot slot (clearSlot slot (clearSlot slot s)) = .str "" := by
  cases slot <;> rfl

/-- Every action schedules the clear of the slot its outcome calls for. -/
theorem handler_timer (a : Action) (cap cur : AppState) :
    (a.handler cap cur).timer = some (a.slot cap) := by
  cases a with
  | create res => cases res <;> rfl
  | update res =>
    cases hE : cap.editingUser with
    | none => cases res <;> simp [Action.handler, Action.slot, updateUser, hE]
    | some e => cases res <;> simp [Action.handler, Action.slot, updateUser, hE]
  | delete id res => cases res <;> rfl

/-- Every action leaves a message in the slot its outcome calls for. -/
theorem handler_message_ne_empty (a : Action) (cap cur : AppState) :
    getSlot (a.slot cap) (a.handler cap cur).state ≠ .str "" := by
  cases a with
  | create res =>
    cases res with
    | ok r => simp [Action.handler, Action.slot, createUser, getSlot]
    | fail err =>
      simp only [Action.handler, Action.slot, createUser, getSlot]
      exact jsOr_ne_empty _ _ (by decide)
  | update res =>
    cases hE : cap.editingUser with
    | none =>
      cases res with
      | ok r =>
        simp only [Action.handler, Action.slot, updateUser, hE, getSlot, Option.isSome_none,
          Bool.false_eq_true, if_false]
        exact jsOr_ne_empty _ _ (by decide)
      | fail err =>
        simp only [Action.handler, Action.slot, updateUser, hE, getSlot]
        exact jsOr_ne_empty _ _ (by decide)
    | some e =>
      cases res with
      | ok r => simp [Action.handler, Action.slot, updateUser, hE, getSlot]
      | fail err =>
        simp only [Action.handler, Action.slot, updateUser, hE, getSlot]
        exact jsOr_ne_empty _ _ (by decide)
  | delete id res =>
    cases res with
    | ok u => simp [Action.handler, Action.slot, deleteUser, getSlot]
    | fail err => simp [Action.handler, Action.slot, deleteUser, getSlot]

theorem afterOne_eq (s : AppState) (t1 : Nat) (a1 : Action) (c1 : AppState) :
    afterOne s t1 a1 c1 =
      { app := (a1.handler c1 s).state,
        timers := [{ fireAt := t1 + 3000, slot := a1.slot c1 }] } := by
  simp [afterOne, complete, fireDue, handler_timer]

theorem afterTwo_eq (s : AppState) (t1 t2 : Nat) (a1 a2 : Action) (c1 c2 : AppState)
    (ht : t2 < t1 + 3000) :
    afterTwo s t1 a1 c1 t2 a2 c2 =
      { app := (a2.handler c2 (a1.handler c1 s).state).state,
        timers := [{ fireAt := t1 + 3000, slot := a1.slot c1 },
                   { fireAt := t2 + 3000, slot := a2.slot c2 }] } := by
  have hn : ¬ (t1 + 3000 ≤ t2) := by omega
  simp [afterTwo, afterOne_eq, complete, fireDue, handler_timer, hn]

/-- C9: every completed create, update or delete leaves a message in the
slot of its outcome and schedules one unconditional clear of that slot
3000 ms after its completion time.  A single action completed at `t1` shows
its message from `t1` until just before `t1 + 3000` and has it cleared from
`t1 + 3000` on.  Two actions of the same outcome completed at
`t1 < t2 < t1 + 3000` show the message set at `t2` only until just before
`t1 + 3000`: it is cleared from `t1 + 3000` on, which is earlier than
`t2 + 3000`. -/
theorem stale_timer_clears_newer_message (s c1 c2 : AppState) (a1 a2 : Action)
    (t1 t2 : Nat) :
    ((a1.handler c1 s).timer = some (a1.slot c1) ∧
     (afterOne s t1 a1 c1).timers = [{ fireAt := t1 + 3000, slot := a1.slot c1 }] ∧
     getSlot (a1.slot c1) (afterOne s t1 a1 c1).app =
       getSlot (a1.slot c1) (a1.handler c1 s).state ∧
     getSlot (a1.slot c1) (afterOne s t1 a1 c1).app ≠ .str "" ∧
     (∀ t : Nat, t1 ≤ t → t < t1 + 3000 →
        getSlot (a1.slot c1) (viewAt t (afterOne s t1 a1 c1)) =
          getSlot (a1.slot c1) (afterOne s t1 a1 c1).app) ∧
     (∀ t : Nat, t1 + 3000 ≤ t →
        getSlot (a1.slot c1) (viewAt t (afterOne s t1 a1 c1)) = .str "")) ∧
    (a1.slot c1 = a2.slot c2 → t1 < t2 → t2 < t1 + 3000 →
     (afterTwo s t1 a1 c1 t2 a2 c2).timers =
       [{ fireAt := t1 + 3000, slot := a1.slot c1 },
        { fireAt := t2 + 3000, slot := a2.slot c2 }] ∧
     getSlot (a2.slot c2) (afterTwo s t1 a1 c1 t2 a2 c2).app =
       getSlot (a2.slot c2) (a2.handler c2 (a1.handler c1 s).state).state ∧
     getSlot (a2.slot c2) (afterTwo s t1 a1 c1 t2 a2 c2).app ≠ .str "" ∧
     (∀ t : Nat, t2 ≤ t → t < t1 + 3000 →
        getSlot (a2.slot c2) (viewAt t (afterTwo s t1 a1 c1 t2 a2 c2)) =
          getSlot (a2.slot c2) (afterTwo s t1 a1 c1 t2 a2 c2).app) ∧
     (∀ t : Nat, t1 + 3000 ≤ t →
        getSlot (a2.slot c2) (viewAt t (afterTwo s t1 a1 c1 t2 a2 c2)) = .str "") ∧
     t1 + 3000 < t2 + 3000) := by
  refine ⟨⟨handler_timer a1 c1 s, ?_, ?_, ?_, ?_, ?_⟩, ?_⟩
  · rw [afterOne_eq]
  · rw [afterOne_eq]
  · rw [afterOne_eq]
    exact handler_message_ne_empty a1 c1 s
  · intro t _ hlt
    have hn1 : ¬ (t1 + 3000 ≤ t) := by omega
    rw [afterOne_eq]
    simp [viewAt, fireDue, hn1]
  · intro t hge
    rw [afterOne_eq]
    simp [viewAt, fireDue, hge, getSlot_clearSlot]
  · intro hslot ht1 ht2
    rw [afterTwo_eq s t1 t2 a1 a2 c1 c2 ht2, hslot]
    refine ⟨rfl, rfl, handler_message_ne_empty a2 c2 _, ?_, ?_, by omega⟩
    · intro t _ hlt
      have hn1 : ¬ (t1 + 3000 ≤ t) := by omega
      have hn2 : ¬ (t2 + 3000 ≤ t) := by omega
      simp [viewAt, fireDue, hn1, hn2]
    · intro t hge
      by_cases h2 : t2 + 3000 ≤ t
      · simp [viewAt, fireDue, hge, h2, getSlot_clearSlot_twice]
      · simp [viewAt, fireDue, hge, h2, getSlot_clearSlot]

/-- Witness of C9: with the list loaded, a create succeeds at 1000 ms and a
delete started after it succeeds at 2500 ms; the message of the delete is
gone at 4000 ms. -/
theorem stale_timer_clears_newer_message_witness :
    ((Action.create (.ok baby)).slot loaded =
       (Action.delete "u2" (.ok ())).slot (createUser loaded (.ok baby) loaded).state ∧
     1000 < 2500 ∧ 2500 < 1000 + 3000) ∧
    getSlot Slot.success
      (viewAt (1000 + 3000)
        (afterTwo loaded 1000 (.create (.ok baby)) loaded 2500 (.delete "u2" (.ok ()))
          (createUser loaded (.ok baby) loaded).state)) = .str "" :=
  ⟨⟨rfl, by decide, by decide⟩,
   ((stale_timer_clears_newer_message loaded loaded
      (createUser loaded (.ok baby) loaded).state (.create (.ok baby))
      (.delete "u2" (.ok ())) 1000 2500).2 rfl (by decide) (by decide)).2.2.2.2.1
      (1000 + 3000) (Nat.le_refl _)⟩

/-- C10: on success, create, update and delete write records computed from
the list captured when the action started (`cap`), whatever the records are
when the response arrives (`cur`), while what they leave alone stays as in
`cur`.  Hence, for a captured list holding a record with id `a` and any id
`b ≠ a`: when delete(a) and delete(b) both start from that list and a's
response is applied first, the record is gone after the first response and
back after the second; and a create started from that list whose response
arrives after delete(a) completed brings the record back. -/
theorem last_response_wins (cap cur : AppState) (r : User) (a : String) :
    ((createUser cap (.ok r) cur).state.users = r :: cap.users ∧
     (∀ editing : User, cap.editingUser = some editing →
       (updateUser cap (.ok r) cur).state.users =
         cap.users.map (fun u => if u._id = editing._id then r else u)) ∧
     (deleteUser a true cap (.ok ()) cur).state.users =
       cap.users.filter (fun u => decide (u._id ≠ a))) ∧
    ((createUser cap (.ok r) cur).state.editingUser = cur.editingUser ∧
     (createUser cap (.ok r) cur).state.loading = cur.loading ∧
     (updateUser cap (.ok r) cur).state.loading = cur.loading ∧
     (deleteUser a true cap (.ok ()) cur).state.editingUser = cur.editingUser ∧
     (deleteUser a true cap (.ok ()) cur).state.formData = cur.formData ∧
     (deleteUser a true cap (.ok ()) cur).state.loading = cur.loading) ∧
    (∀ (ua : User) (b : String), ua ∈ cap.users → ua._id = a → a ≠ b →
      ua ∉ (deleteUser a true cap (.ok ()) cap).state.users ∧
      ua ∈ (deleteUser b true cap (.ok ())
              (deleteUser a true cap (.ok ()) cap).state).state.users ∧
      ua ∈ (createUser cap (.ok r) (deleteUser a true cap (.ok ()) cap).state).state.users) := by
  refine ⟨⟨rfl, ?_, ?_⟩, ⟨rfl, rfl, ?_, rfl, rfl, rfl⟩, ?_⟩
  · intro editing he
    simp [updateUser, he]
  · simp only [deleteUser, if_true]
    congr 1
    funext u
    by_cases hu : u._id = a <;> simp [hu]
  · cases hE : cap.editingUser <;> simp [updateUser, hE]
  · intro ua b hmem hid hab
    have hne : ua._id ≠ b := by rw [hid]; exact hab
    refine ⟨?_, ?_, ?_⟩
    · simp [deleteUser, List.mem_filter, hid]
    · simp [deleteUser, List.mem_filter, hmem, hne]
    · simp [createUser, hmem]

/-- Witness of C10: deleting `ann` and then `bob`, both started from the list
`[ann, bob]`, leaves `ann` in the records. -/
theorem last_response_wins_witness :
    (ann ∈ loaded.users ∧ ann._id = "u1" ∧ "u1" ≠ "u2") ∧
    ann ∈ (deleteUser "u2" true loaded (.ok ())
      (deleteUser "u1" true loaded (.ok ()) loaded).state).state.users :=
  ⟨⟨by decide, rfl, by decide⟩,
   ((last_response_wins loaded loaded baby "u1").2.2 ann "u2"
      (by decide) rfl (by decide)).2.1⟩

end CrudApp
